import Mathlib

/-!
Shallow embedding of the fastapi-simple-auth core:
token issuance and verification (`src/auth/util/main.py`), the request-time
authentication gate (`authenticate`), the generic repository
(`src/base/database/repository/base.py`), and the account-deletion endpoint
(`src/auth/endpoint/account/main.py`).

Times are modelled as integer timestamps (seconds).  A signed JWT compact
serialization is modelled as the triple of information it determines:
the encoded payload, the signing key and the signing algorithm; equality of
such triples stands for equality of the serialized strings.
-/

/-- A JSON value usable as the `sub` claim: either a JSON number (integer)
or a JSON string.  Python `int(x)` succeeds on the former and parses the
latter. -/
inductive SubVal where
  | vInt (n : Int)
  | vStr (s : String)
deriving DecidableEq, Repr

/-- The decoded JWT payload fields the code reads: the optional `sub` claim
and the optional numeric `exp` claim (absolute expiry timestamp). -/
structure Payload where
  sub : Option SubVal
  exp : Option Int
deriving DecidableEq, Repr

/-- A signed token: the compact serialization determined by the payload, the
signing key and the signing algorithm (`jwt.encode(to_encode, key, algorithm)`). -/
structure SignedToken where
  payload : Payload
  key : String
  alg : String
deriving DecidableEq, Repr

/-- `jwt.encode(payload, key, algorithm)`. -/
def jwt_encode (payload : Payload) (key : String) (alg : String) : SignedToken :=
  ⟨payload, key, alg⟩

/-- `jwt.decode(token, key, algorithms=algs)` evaluated at wall-clock `now`:
returns the payload, or `none` for any `InvalidTokenError` (algorithm not in
the allowed list, signature/key mismatch, or expiry passed; PyJWT treats a
missing `exp` claim as no expiry check, and expires when `exp <= now` with
zero leeway). -/
def jwt_decode (token : SignedToken) (key : String) (algs : List String)
    (now : Int) : Option Payload :=
  if token.alg ∉ algs then none
  else if token.key ≠ key then none
  else
    match token.payload.exp with
    | some e => if e ≤ now then none else some token.payload
    | none => some token.payload

/-- Modelled from the spec: the configuration object (`src.base.config.Config`
is not under src/).  Per §9 it supplies the named options
access secret, refresh secret and algorithm, read through
`require_config(key)`. -/
structure Config where
  ACCESS_SECRET_KEY : String
  REFRESH_SECRET_KEY : String
  ALGORITHM : String
deriving DecidableEq, Repr

/-- `config.require_config(key)`.  The embedded code only ever requests the
three keys below; `require_config` raises for an unknown key, a path no call
site reaches, modelled as `""`. -/
def Config.require_config (c : Config) (key : String) : String :=
  if key = "ACCESS_SECRET_KEY" then c.ACCESS_SECRET_KEY
  else if key = "REFRESH_SECRET_KEY" then c.REFRESH_SECRET_KEY
  else if key = "ALGORITHM" then c.ALGORITHM
  else ""

/-- Python truthiness of an `Optional[timedelta]` (or `Optional[int]`):
`None` and the zero value are falsy. -/
def opt_truthy (d : Option Int) : Bool :=
  match d with
  | some n => n ≠ 0
  | none => false

/-- `create_access_token(data, config, expires_delta)` evaluated at
wall-clock `now`: copies `data`, overwrites `exp` with `now + expires_delta`
when `expires_delta` is truthy and with `now` + 30 minutes otherwise, and
signs with the access secret and the configured algorithm. -/
def create_access_token (data : Payload) (config : Config)
    (expires_delta : Option Int) (now : Int) : SignedToken :=
  let expire : Int :=
    if opt_truthy expires_delta then now + expires_delta.getD 0
    else now + 30 * 60
  jwt_encode { data with exp := some expire }
    (config.require_config "ACCESS_SECRET_KEY")
    (config.require_config "ALGORITHM")

/-- `create_refresh_token(data, config, expires_delta)` evaluated at
wall-clock `now`: same as `create_access_token` but the default expiry is
60 minutes and the signing key is the refresh secret. -/
def create_refresh_token (data : Payload) (config : Config)
    (expires_delta : Option Int) (now : Int) : SignedToken :=
  let expire : Int :=
    if opt_truthy expires_delta then now + expires_delta.getD 0
    else now + 60 * 60
  jwt_encode { data with exp := some expire }
    (config.require_config "REFRESH_SECRET_KEY")
    (config.require_config "ALGORITHM")

/-- Python `int(s)` on a string: optional surrounding whitespace, optional
sign, then ASCII digits with single underscores allowed between digits. -/
def py_digit_run : List Char → Bool
  | [] => true
  | '_' :: c :: cs => c.isDigit && py_digit_run cs
  | ['_'] => false
  | c :: cs => c.isDigit && py_digit_run cs

/-- Numeric value of a digit run once underscores are removed. -/
def py_digit_val (cs : List Char) : Int :=
  (cs.filter (fun c => c ≠ '_')).foldl (fun acc c => acc * 10 + (c.toNat - '0'.toNat)) 0

/-- Leading and trailing whitespace removal on a character list, as Python
`int` strips the string argument before parsing. -/
def py_strip (cs : List Char) : List Char :=
  ((cs.dropWhile (fun c => c.isWhitespace)).reverse.dropWhile
    (fun c => c.isWhitespace)).reverse

/-- Python `int(s)` for a string argument: `some n` on success, `none` when
`int` raises `ValueError`. -/
def py_int_parse (s : String) : Option Int :=
  let cs := py_strip s.toList
  match cs with
  | '+' :: rest =>
      if rest ≠ [] && rest.head?.all Char.isDigit && py_digit_run rest
      then some (py_digit_val rest) else none
  | '-' :: rest =>
      if rest ≠ [] && rest.head?.all Char.isDigit && py_digit_run rest
      then some (-(py_digit_val rest)) else none
  | rest =>
      if rest ≠ [] && rest.head?.all Char.isDigit && py_digit_run rest
      then some (py_digit_val rest) else none

/-- Python `int(account_id)` on the value of the `sub` claim: identity on an
integer, string parse on a string. -/
def py_int_of_sub : SubVal → Option Int
  | .vInt n => some n
  | .vStr s => py_int_parse s

/-- The errors `verify_token` can raise: `AccountUnAuthorizedException`, or
the uncaught Python `ValueError` from `int(account_id)` (raised outside the
`try` block). -/
inductive VerifyError where
  | unauthorized
  | valueError
deriving DecidableEq, Repr

/-- `verify_token(token, config, type)` evaluated at wall-clock `now`:
selects the access secret exactly when `type == "access"` and the refresh
secret otherwise, decodes (any `InvalidTokenError` → Unauthorized), fails
Unauthorized when the `sub` claim is absent, then returns `int(sub)` — a
conversion that happens outside the `try`, so a non-integer subject raises
`ValueError`. -/
def verify_token (token : SignedToken) (config : Config) (now : Int)
    (type : String) : Except VerifyError Int :=
  let secret_key :=
    if type = "access" then config.require_config "ACCESS_SECRET_KEY"
    else config.require_config "REFRESH_SECRET_KEY"
  match jwt_decode token secret_key [config.require_config "ALGORITHM"] now with
  | none => .error .unauthorized
  | some payload =>
    match payload.sub with
    | none => .error .unauthorized
    | some account_id =>
      match py_int_of_sub account_id with
      | some n => .ok n
      | none => .error .valueError

/-- Errors raised by the generic repository: `NotFoundException`. -/
inductive RepoError where
  | notFound
deriving DecidableEq, Repr

/-- `HTTPAuthorizationCredentials` as returned by the `HTTPBearer` scheme. -/
structure HTTPAuthorizationCredentials where
  scheme : String
  credentials : SignedToken
deriving DecidableEq, Repr

/-- A row of the token allow-list table (`jwt_tokens`): id, the persisted
token string, and the owning account id. -/
structure TokenRecord where
  id : Int
  token_value : SignedToken
  account_id : Int
deriving DecidableEq, Repr

/-- Modelled from the spec: `JWTRepository.get_by_token_value(token_value)`
(the `JWTRepository` module is not under src/).  Per §4.2 it returns the
matching allow-list row and "fails NotFound if absent — this is the
revocation check". -/
def get_by_token_value (store : List TokenRecord) (token_value : SignedToken) :
    Except RepoError TokenRecord :=
  match (store.filter (fun r => r.token_value == token_value)).head? with
  | some r => .ok r
  | none => .error .notFound

/-- The credential `authenticate` proceeds with: the HTTP bearer credential
when present, else the OAuth2 form token.  (A JWT compact serialization is a
nonempty string, so `if token:` on the selected value is truth exactly when a
credential was selected.) -/
def presented_token (oauth_token : Option SignedToken)
    (http_credential : Option HTTPAuthorizationCredentials) : Option SignedToken :=
  match http_credential with
  | some cred => some cred.credentials
  | none => oauth_token

/-- `authenticate(oauth_token, http_credential, jwt_repository, config)`
evaluated at wall-clock `now` over allow-list state `store`: selects the
credential (HTTP bearer takes precedence), fails Unauthorized when none is
present, fails Unauthorized when the allow-list lookup raises NotFound, and
otherwise delegates to `verify_token` with the default class `"access"`. -/
def authenticate (oauth_token : Option SignedToken)
    (http_credential : Option HTTPAuthorizationCredentials)
    (store : List TokenRecord) (config : Config) (now : Int) :
    Except VerifyError Int :=
  match presented_token oauth_token http_credential with
  | some token =>
    match get_by_token_value store token with
    | .error .notFound => .error .unauthorized
    | .ok _ => verify_token token config now "access"
  | none => .error .unauthorized

/-- `Repository.get_one(entity_id)` over table state `table`, with `idOf`
playing `self._model.id`: `SELECT .. WHERE id = entity_id`, first scalar or
`NotFoundException`. -/
def Repository.get_one {α : Type} (idOf : α → Int) (table : List α)
    (entity_id : Int) : Except RepoError α :=
  match (table.filter (fun r => idOf r == entity_id)).head? with
  | some r => .ok r
  | none => .error .notFound

/-- `Repository.get_multiple(skip, limit)` over table state `table`: an
independent unfiltered `COUNT` query gives the total; `OFFSET skip` is
applied only when `skip` is truthy and `LIMIT limit` only when `limit` is
truthy (`if skip:` / `if limit:` — `None` and `0` are falsy).  Parameters are
`Optional[int]`; negative values make the database error, so the embedding
takes naturals. -/
def Repository.get_multiple {α : Type} (table : List α)
    (skip limit : Option Nat) : List α × Nat :=
  let total := table.length
  let q1 := match skip with
    | some s => if s ≠ 0 then table.drop s else table
    | none => table
  let q2 := match limit with
    | some l => if l ≠ 0 then q1.take l else q1
    | none => q1
  (q2, total)

/-- `Repository.update(entity_id, values)` over table state `table`.  The
`UPDATE .. WHERE id = entity_id .. RETURNING id` statement rewrites every
matching row by the field map (modelled as `values : α → α`) and returns the
id of the first updated row, or `NULL` when no row matched; the method then
re-reads via `get_one(result)` — and `WHERE id = NULL` matches no row, so a
missing id surfaces as `NotFoundException` from the terminal read-back.
Returns the new table state together with the read-back outcome. -/
def Repository.update {α : Type} (idOf : α → Int) (table : List α)
    (entity_id : Int) (values : α → α) : List α × Except RepoError α :=
  let newTable := table.map (fun r => if idOf r == entity_id then values r else r)
  let result : Option Int :=
    ((table.filter (fun r => idOf r == entity_id)).map (fun r => idOf (values r))).head?
  match result with
  | some i => (newTable, Repository.get_one idOf newTable i)
  | none => (newTable, .error .notFound)

/-- A row of the accounts table (§6 persisted layout). -/
structure Account where
  id : Int
  organization_name : String
  email : String
  phone : String
  hashed_password : String
deriving DecidableEq, Repr

/-- The persisted state the account-deletion endpoint touches: the accounts
table and the token allow-list table. -/
structure AuthState where
  accounts : List Account
  jwt_tokens : List TokenRecord
deriving DecidableEq, Repr

/-- Modelled from the spec: `JWTRepository.delete_by_account_id(account_id)`
(not under src/).  Per §4.2 it is a bulk delete of the account's allow-list
rows, "used on account deletion and logout-everywhere". -/
def delete_by_account_id (store : List TokenRecord) (account_id : Int) :
    List TokenRecord :=
  store.filter (fun r => !(r.account_id == account_id))

/-- Modelled from the spec: `AccountRepository.delete(entity_id)` (not under
src/; the generic base deliberately provides no delete).  Removes the account
row with the given id. -/
def account_repository_delete (store : List Account) (entity_id : Int) :
    List Account :=
  store.filter (fun a => !(a.id == entity_id))

/-- `delete_account(account_id)`: first `jwt_repository.delete_by_account_id`,
then `account_repository.delete`, each its own transaction.  The result is
the trace of committed states, one entry per transaction, so the state after
the first commit is observable. -/
def delete_account (s : AuthState) (account_id : Int) : List AuthState :=
  let s1 : AuthState := { s with jwt_tokens := delete_by_account_id s.jwt_tokens account_id }
  let s2 : AuthState := { s1 with accounts := account_repository_delete s1.accounts account_id }
  [s1, s2]

theorem require_config_access (c : Config) :
    c.require_config "ACCESS_SECRET_KEY" = c.ACCESS_SECRET_KEY := rfl

theorem require_config_refresh (c : Config) :
    c.require_config "REFRESH_SECRET_KEY" = c.REFRESH_SECRET_KEY := rfl

theorem require_config_algorithm (c : Config) :
    c.require_config "ALGORITHM" = c.ALGORITHM := rfl

theorem jwt_decode_key_ne (t : SignedToken) (key : String) (algs : List String)
    (now : Int) (h : t.key ≠ key) : jwt_decode t key algs now = none := by
  unfold jwt_decode
  by_cases halg : t.alg ∈ algs
  · simp [halg, h]
  · simp [halg]

theorem jwt_decode_expired (t : SignedToken) (key : String) (algs : List String)
    (now e : Int) (hexp : t.payload.exp = some e) (hle : e ≤ now) :
    jwt_decode t key algs now = none := by
  unfold jwt_decode
  by_cases halg : t.alg ∈ algs
  · by_cases hkey : t.key = key
    · simp [halg, hkey, hexp, hle]
    · simp [halg, hkey]
  · simp [halg]

theorem jwt_decode_some_payload (t : SignedToken) (key : String)
    (algs : List String) (now : Int) (p : Payload)
    (h : jwt_decode t key algs now = some p) : p = t.payload := by
  unfold jwt_decode at h
  split at h
  · exact absurd h (by simp)
  · split at h
    · exact absurd h (by simp)
    · split at h
      · split at h
        · exact absurd h (by simp)
        · exact (Option.some_injective _ h).symm
      · exact (Option.some_injective _ h).symm

theorem verify_token_access_eq (t : SignedToken) (c : Config) (now : Int) :
    verify_token t c now "access" =
      match jwt_decode t c.ACCESS_SECRET_KEY [c.ALGORITHM] now with
      | none => .error .unauthorized
      | some payload =>
        match payload.sub with
        | none => .error .unauthorized
        | some account_id =>
          match py_int_of_sub account_id with
          | some n => .ok n
          | none => .error .valueError := rfl

/-- C1: for every token string presented to `authenticate` that has no
matching row in the token allow-list store, `authenticate` fails
Unauthorized, regardless of the token's own structural validity, signature
or expiry. -/
theorem authenticate_absent_row_unauthorized
    (oauth_token : Option SignedToken)
    (http_credential : Option HTTPAuthorizationCredentials)
    (store : List TokenRecord) (config : Config) (now : Int) (t : SignedToken)
    (hp : presented_token oauth_token http_credential = some t)
    (habs : ∀ r ∈ store, r.token_value ≠ t) :
    authenticate oauth_token http_credential store config now =
      .error .unauthorized := by
  have hlk : get_by_token_value store t = .error .notFound := by
    unfold get_by_token_value
    have hfil : store.filter (fun r => r.token_value == t) = [] := by
      rw [List.filter_eq_nil_iff]
      intro r hr
      simp [habs r hr]
    rw [hfil]
    rfl
  unfold authenticate
  rw [hp]
  dsimp only
  rw [hlk]

/-- Witness for C1: a correctly signed, unexpired access token carrying
subject 42 verifies successfully on its own, yet `authenticate` rejects it
with Unauthorized when the allow-list holds no row for it. -/
theorem authenticate_absent_row_unauthorized_witness :
    verify_token
      (create_access_token ⟨some (.vInt 42), none⟩ ⟨"as", "rs", "HS256"⟩ none 0)
      ⟨"as", "rs", "HS256"⟩ 10 "access" = .ok 42
    ∧ authenticate none
        (some ⟨"Bearer",
          create_access_token ⟨some (.vInt 42), none⟩ ⟨"as", "rs", "HS256"⟩ none 0⟩)
        [] ⟨"as", "rs", "HS256"⟩ 10 = .error .unauthorized := by
  refine ⟨rfl, ?_⟩
  exact authenticate_absent_row_unauthorized none
    (some ⟨"Bearer",
      create_access_token ⟨some (.vInt 42), none⟩ ⟨"as", "rs", "HS256"⟩ none 0⟩)
    [] ⟨"as", "rs", "HS256"⟩ 10
    (create_access_token ⟨some (.vInt 42), none⟩ ⟨"as", "rs", "HS256"⟩ none 0)
    rfl (by simp)

theorem jwt_decode_alg_notin (t : SignedToken) (key : String)
    (algs : List String) (now : Int) (h : t.alg ∉ algs) :
    jwt_decode t key algs now = none := by
  unfold jwt_decode
  simp [h]

theorem verify_token_eq_match (t : SignedToken) (c : Config) (now : Int)
    (type : String) :
    verify_token t c now type =
      match jwt_decode t
          (if type = "access" then c.ACCESS_SECRET_KEY else c.REFRESH_SECRET_KEY)
          [c.ALGORITHM] now with
      | none => .error .unauthorized
      | some payload =>
        match payload.sub with
        | none => .error .unauthorized
        | some account_id =>
          match py_int_of_sub account_id with
          | some n => .ok n
          | none => .error .valueError := rfl

/-- C2 counterexample: a token correctly signed with the access secret and
the configured algorithm, unexpired, carrying the non-numeric string subject
"abc", makes `verify_token` raise the Python `ValueError` from
`int(account_id)` — an error kind other than Unauthorized escapes to the
caller. -/
theorem verify_token_malformed_subject_counterexample :
    verify_token (jwt_encode ⟨some (.vStr "abc"), some 100⟩ "k" "HS256")
      ⟨"k", "r", "HS256"⟩ 0 "access" = .error .valueError
    ∧ VerifyError.valueError ≠ VerifyError.unauthorized :=
  ⟨rfl, by decide⟩

/-- C2 (amended): `verify_token` fails Unauthorized whenever the signature
key mismatches, the algorithm mismatches, the expiry has passed, or the
`sub` claim is absent; the only other error that can escape is the Python
`ValueError` from `int`, which occurs exactly when a `sub` claim is present
but not convertible to an integer. -/
theorem verify_token_error_classification (t : SignedToken) (c : Config)
    (now : Int) :
    (t.key ≠ c.ACCESS_SECRET_KEY →
      verify_token t c now "access" = .error .unauthorized)
    ∧ (t.alg ≠ c.ALGORITHM →
        ∀ type, verify_token t c now type = .error .unauthorized)
    ∧ (∀ e : Int, t.payload.exp = some e → e ≤ now →
        ∀ type, verify_token t c now type = .error .unauthorized)
    ∧ (t.payload.sub = none →
        ∀ type, verify_token t c now type = .error .unauthorized)
    ∧ (∀ type e, verify_token t c now type = .error e →
        e = .unauthorized
        ∨ (e = .valueError ∧ ∃ v, t.payload.sub = some v ∧ py_int_of_sub v = none)) := by
  refine ⟨?_, ?_, ?_, ?_, ?_⟩
  · intro h
    rw [verify_token_access_eq, jwt_decode_key_ne t _ _ _ h]
  · intro h type
    rw [verify_token_eq_match, jwt_decode_alg_notin t _ _ _ (by simp [h])]
  · intro e he hle type
    rw [verify_token_eq_match, jwt_decode_expired t _ _ _ e he hle]
  · intro hsub type
    rw [verify_token_eq_match]
    cases hd : jwt_decode t
        (if type = "access" then c.ACCESS_SECRET_KEY else c.REFRESH_SECRET_KEY)
        [c.ALGORITHM] now with
    | none => rfl
    | some p =>
      have hp := jwt_decode_some_payload _ _ _ _ _ hd
      subst hp
      dsimp only
      rw [hsub]
  · intro type e he
    rw [verify_token_eq_match] at he
    cases hd : jwt_decode t
        (if type = "access" then c.ACCESS_SECRET_KEY else c.REFRESH_SECRET_KEY)
        [c.ALGORITHM] now with
    | none =>
      rw [hd] at he
      simp only [Except.error.injEq] at he
      exact Or.inl he.symm
    | some p =>
      rw [hd] at he
      have hp := jwt_decode_some_payload _ _ _ _ _ hd
      subst hp
      dsimp only at he
      cases hs : t.payload.sub with
      | none =>
        rw [hs] at he
        dsimp only at he
        simp only [Except.error.injEq] at he
        exact Or.inl he.symm
      | some v =>
        rw [hs] at he
        dsimp only at he
        cases hv : py_int_of_sub v with
        | none =>
          rw [hv] at he
          dsimp only at he
          simp only [Except.error.injEq] at he
          exact Or.inr ⟨he.symm, v, rfl, hv⟩
        | some n =>
          rw [hv] at he
          exact absurd he (by simp)

/-- Witness for C2 (amended): a token whose embedded expiry 3 has passed at
time 5 is rejected with Unauthorized. -/
theorem verify_token_error_classification_witness :
    verify_token (jwt_encode ⟨some (.vInt 7), some 3⟩ "k" "HS256")
      ⟨"k", "r", "HS256"⟩ 5 "access" = .error .unauthorized :=
  (verify_token_error_classification
    (jwt_encode ⟨some (.vInt 7), some 3⟩ "k" "HS256")
    ⟨"k", "r", "HS256"⟩ 5).2.2.1 3 rfl (by decide) "access"

/-- C3: with distinct class secrets (the spec's "independent signing
secret" invariant), a token issued by `create_access_token` always fails
verification under the refresh class and a token issued by
`create_refresh_token` always fails under the access class; moreover
access-class verification reads only the access secret and the algorithm,
never the refresh secret. -/
theorem token_class_separation (data : Payload) (c : Config)
    (d : Option Int) (now now2 : Int)
    (h : c.ACCESS_SECRET_KEY ≠ c.REFRESH_SECRET_KEY) :
    verify_token (create_access_token data c d now) c now2 "refresh" =
      .error .unauthorized
    ∧ verify_token (create_refresh_token data c d now) c now2 "access" =
        .error .unauthorized
    ∧ ∀ (c2 : Config) (t : SignedToken) (m : Int),
        c.ACCESS_SECRET_KEY = c2.ACCESS_SECRET_KEY → c.ALGORITHM = c2.ALGORITHM →
        verify_token t c m "access" = verify_token t c2 m "access" := by
  refine ⟨?_, ?_, ?_⟩
  · rw [verify_token_eq_match,
      jwt_decode_key_ne (create_access_token data c d now) _ _ _ (by simpa using h)]
  · rw [verify_token_eq_match,
      jwt_decode_key_ne (create_refresh_token data c d now) _ _ _
        (by simpa using h.symm)]
  · intro c2 t m h1 h2
    rw [verify_token_access_eq, verify_token_access_eq, h1, h2]

/-- Witness for C3: with concrete distinct secrets, the cross-class
verifications of freshly issued tokens both fail Unauthorized. -/
theorem token_class_separation_witness :
    verify_token
      (create_access_token ⟨some (.vInt 1), none⟩ ⟨"a", "r", "HS256"⟩ none 0)
      ⟨"a", "r", "HS256"⟩ 0 "refresh" = .error .unauthorized
    ∧ verify_token
        (create_refresh_token ⟨some (.vInt 1), none⟩ ⟨"a", "r", "HS256"⟩ none 0)
        ⟨"a", "r", "HS256"⟩ 0 "access" = .error .unauthorized :=
  ⟨(token_class_separation ⟨some (.vInt 1), none⟩ ⟨"a", "r", "HS256"⟩ none 0 0
      (by decide)).1,
   (token_class_separation ⟨some (.vInt 1), none⟩ ⟨"a", "r", "HS256"⟩ none 0 0
      (by decide)).2.1⟩

/-- C4: when both transports carry a credential, `authenticate` proceeds
with the HTTP bearer credential — its outcome is identical to presenting
the bearer credential alone, whatever the OAuth form token was — and when
neither transport carries a credential it fails Unauthorized. -/
theorem authenticate_transport_precedence (o : SignedToken)
    (cred : HTTPAuthorizationCredentials) (store : List TokenRecord)
    (c : Config) (now : Int) :
    authenticate (some o) (some cred) store c now =
      authenticate none (some cred) store c now
    ∧ presented_token (some o) (some cred) = some cred.credentials
    ∧ authenticate none none store c now = .error .unauthorized :=
  ⟨rfl, rfl, rfl⟩

/-- C9: with no explicit expiry delta, `create_access_token` embeds the
absolute expiry `now` + 30 minutes and `create_refresh_token` embeds
`now` + 60 minutes (in seconds); each preserves the caller's payload and
signs with its own class secret and the configured algorithm. -/
theorem token_issuance_defaults (data : Payload) (c : Config) (now : Int) :
    (create_access_token data c none now).payload.exp = some (now + 30 * 60)
    ∧ (create_access_token data c none now).payload.sub = data.sub
    ∧ (create_access_token data c none now).key = c.ACCESS_SECRET_KEY
    ∧ (create_access_token data c none now).alg = c.ALGORITHM
    ∧ (create_refresh_token data c none now).payload.exp = some (now + 60 * 60)
    ∧ (create_refresh_token data c none now).payload.sub = data.sub
    ∧ (create_refresh_token data c none now).key = c.REFRESH_SECRET_KEY
    ∧ (create_refresh_token data c none now).alg = c.ALGORITHM :=
  ⟨rfl, rfl, rfl, rfl, rfl, rfl, rfl, rfl⟩

/-- C10: the class selector of `verify_token` is not validated — for every
`type` other than the exact string "access", verification behaves exactly
as for the refresh class (the refresh secret is used). -/
theorem verify_token_type_selector (t : SignedToken) (c : Config) (now : Int)
    (type : String) (h : type ≠ "access") :
    verify_token t c now type = verify_token t c now "refresh" := by
  rw [verify_token_eq_match, verify_token_eq_match]
  rw [if_neg h, if_neg (by decide : ¬ ("refresh" : String) = "access")]

/-- Witness for C10: the misspelled selector "Access" selects refresh-class
verification. -/
theorem verify_token_type_selector_witness :
    verify_token (jwt_encode ⟨some (.vInt 5), none⟩ "k" "HS256")
      ⟨"a", "r", "HS256"⟩ 0 "Access" =
    verify_token (jwt_encode ⟨some (.vInt 5), none⟩ "k" "HS256")
      ⟨"a", "r", "HS256"⟩ 0 "refresh" :=
  verify_token_type_selector (jwt_encode ⟨some (.vInt 5), none⟩ "k" "HS256")
    ⟨"a", "r", "HS256"⟩ 0 "Access" (by decide)

/-- C5 counterexample: with `limit = 0` (falsy, so the `LIMIT` clause is
skipped) a one-row table yields one record — more than `limit` — so
`get_multiple` does not return at most `limit` records for every limit;
the total count is nevertheless the unfiltered row count. -/
theorem get_multiple_limit_zero_counterexample :
    (Repository.get_multiple
      [(⟨1, "Acme", "a@acme.io", "123", "h"⟩ : Account)] (some 0) (some 0)).1.length = 1
    ∧ ¬ (Repository.get_multiple
      [(⟨1, "Acme", "a@acme.io", "123", "h"⟩ : Account)] (some 0) (some 0)).1.length ≤ 0 :=
  ⟨rfl, by decide⟩

/-- C5 (amended): `total_count` is the unfiltered row count for every store
state, skip and limit; and whenever `limit` is a truthy (nonzero) value,
`get_multiple` returns at most `limit` records.  (A limit of `None` or `0`
is falsy, the `LIMIT` clause is skipped, and all remaining rows are
returned.) -/
theorem get_multiple_pagination {α : Type} (table : List α)
    (skip limit : Option Nat) :
    (Repository.get_multiple table skip limit).2 = table.length
    ∧ ∀ l : Nat, limit = some l → l ≠ 0 →
        (Repository.get_multiple table skip limit).1.length ≤ l := by
  constructor
  · rfl
  · intro l hl hl0
    subst hl
    unfold Repository.get_multiple
    simp only [hl0, if_true, ne_eq, not_false_iff]
    split <;> simp [List.length_take]

/-- Witness for C5 (amended): a two-row table with `skip = 0`, `limit = 1`
yields total count 2 and at most one record. -/
theorem get_multiple_pagination_witness :
    (Repository.get_multiple
      [(⟨1, "Acme", "a@acme.io", "123", "h"⟩ : Account),
       (⟨2, "Bmce", "b@bmce.io", "456", "g"⟩ : Account)] (some 0) (some 1)).2 = 2
    ∧ (Repository.get_multiple
      [(⟨1, "Acme", "a@acme.io", "123", "h"⟩ : Account),
       (⟨2, "Bmce", "b@bmce.io", "456", "g"⟩ : Account)] (some 0) (some 1)).1.length ≤ 1 :=
  ⟨(get_multiple_pagination
      [(⟨1, "Acme", "a@acme.io", "123", "h"⟩ : Account),
       (⟨2, "Bmce", "b@bmce.io", "456", "g"⟩ : Account)] (some 0) (some 1)).1,
   (get_multiple_pagination
      [(⟨1, "Acme", "a@acme.io", "123", "h"⟩ : Account),
       (⟨2, "Bmce", "b@bmce.io", "456", "g"⟩ : Account)] (some 0) (some 1)).2
      1 rfl (by decide)⟩

/-- C6: for every id with no matching row, `get_one` fails NotFound, and
`update` with any field map also fails NotFound through its terminal
read-back (`RETURNING id` yields `NULL`, and `WHERE id = NULL` matches no
row). -/
theorem missing_id_not_found {α : Type} (idOf : α → Int) (table : List α)
    (i : Int) (h : ∀ r ∈ table, idOf r ≠ i) (values : α → α) :
    Repository.get_one idOf table i = .error .notFound
    ∧ (Repository.update idOf table i values).2 = .error .notFound := by
  have hfil : table.filter (fun r => idOf r == i) = [] := by
    rw [List.filter_eq_nil_iff]
    intro r hr
    simp [h r hr]
  constructor
  · unfold Repository.get_one
    rw [hfil]
    rfl
  · unfold Repository.update
    rw [hfil]
    rfl

/-- Witness for C6: id 2 is absent from a one-account table, so both
`get_one` and `update` fail NotFound. -/
theorem missing_id_not_found_witness :
    Repository.get_one Account.id
      [(⟨1, "Acme", "a@acme.io", "123", "h"⟩ : Account)] 2 = .error .notFound
    ∧ (Repository.update Account.id
        [(⟨1, "Acme", "a@acme.io", "123", "h"⟩ : Account)] 2 id).2 = .error .notFound :=
  missing_id_not_found Account.id
    [(⟨1, "Acme", "a@acme.io", "123", "h"⟩ : Account)] 2 (by decide) id

/-- C8: `delete_account` commits exactly two independent transactions: the
first deletes every token row of the account while the accounts table is
still untouched (so the intermediate state is observable — the pair is not
atomic), and only the second deletes the account record itself. -/
theorem delete_account_two_phase (s : AuthState) (aid : Int) :
    ∃ s1 s2 : AuthState,
      delete_account s aid = [s1, s2]
      ∧ s1.accounts = s.accounts
      ∧ (∀ r ∈ s1.jwt_tokens, r.account_id ≠ aid)
      ∧ s2.jwt_tokens = s1.jwt_tokens
      ∧ (∀ a ∈ s2.accounts, a.id ≠ aid) := by
  refine ⟨_, _, rfl, rfl, ?_, rfl, ?_⟩
  · intro r hr
    simp only [delete_by_account_id, List.mem_filter, Bool.not_eq_true',
      beq_eq_false_iff_ne, ne_eq] at hr
    exact hr.2
  · intro a ha
    simp only [account_repository_delete, List.mem_filter, Bool.not_eq_true',
      beq_eq_false_iff_ne, ne_eq] at ha
    exact ha.2
